import Mathlib

/-!
Shallow embedding of the anomaly-detection core of the repository
(`anomaly_detector.py` together with the constants of `config.py`).

The metric summary handed to `AnomalyDetector.detect` is a Python dict
holding heterogeneous values (floats, `None`, lists of labelled samples,
nested dicts).  We model such dynamic values by the inductive type `Val`
and a summary by an association list from field names to `Val`; a Python
runtime error raised during `detect` (a `TypeError` from comparing a
non-number, an `AttributeError` from calling `.get` on a non-dict) is
modelled by the `Except.error` branch of the result.

Numbers are modelled by `ℚ`: every literal appearing in the code and in
the claims (80, 94.9, 0.05, ...) is an exact rational, and `detect` only
adds, subtracts, halves, doubles and compares, all of which agree with
IEEE evaluation on these inputs.
-/

/-- A dynamically typed Python value as it can occur in a metric summary. -/
inductive Val where
  | none : Val
  | num : ℚ → Val
  | str : String → Val
  | list : List Val → Val
  | dict : List (String × Val) → Val

/-- A metric summary: the dict passed to `detect` (first binding wins,
as for Python dict keys, which are unique). -/
abbrev Summary := List (String × Val)

/-- Key lookup in a dict modelled as an association list. -/
def lookupS : List (String × Val) → String → Option Val
  | [], _ => Option.none
  | (k2, v) :: rest, k => if k2 = k then some v else lookupS rest k

/-- Python `d.get(k, dflt)`. -/
def pyGetD (s : List (String × Val)) (k : String) (dflt : Val) : Val :=
  match lookupS s k with
  | some v => v
  | Option.none => dflt

/-- Python `d.get(k)` (default `None`). -/
def pyGet (s : List (String × Val)) (k : String) : Val :=
  pyGetD s k Val.none

/-- Python `v == 0` on a summary value: only numbers can equal `0`;
comparison with `==` never raises. -/
def pyEqZero : Val → Bool
  | Val.num x => x == 0
  | _ => false

/-- Python `min` on two numbers (returns the first argument on ties,
like `min a b` below). -/
def pymin (a b : ℚ) : ℚ :=
  if a ≤ b then a else b

/-- Rendering of a value inside an f-string.  The exact decimal rendering
of a float (`:.1f` etc.) is not reproduced on `ℚ`; no theorem below
depends on it, only on messages being non-empty. -/
def pyStr : Val → String
  | Val.none => "None"
  | Val.num q => toString q
  | Val.str s => s
  | Val.list _ => "[...]"
  | Val.dict _ => "\x7b...\x7d"

/-- Rendering of a number under the `:.1f` format specifier (see `pyStr`). -/
def fmt1 (q : ℚ) : String := toString q

/-- Rendering of a number under the `:.2f` format specifier (see `pyStr`). -/
def fmt2 (q : ℚ) : String := toString q

/-- `THRESHOLDS` of `config.py` (environment-variable defaults). -/
structure Thresholds where
  cpu_usage : ℚ
  memory_usage : ℚ
  swap_usage : ℚ
  disk_usage : ℚ
  iowait : ℚ
  load1_per_cpu : ℚ
  network_errors_per_sec : ℚ
  tcp_retrans_per_sec : ℚ
deriving DecidableEq

/-- `SEVERITY_WEIGHTS` of `config.py`. -/
structure Weights where
  system_down : ℚ
  cpu_high : ℚ
  iowait_high : ℚ
  load_extreme : ℚ
  memory_high : ℚ
  swap_high : ℚ
  disk_high : ℚ
  fs_readonly : ℚ
  network_errors : ℚ
  tcp_retrans : ℚ
  tcp_overflow : ℚ
deriving DecidableEq

/-- `SEVERITY_THRESHOLDS` of `config.py`. -/
structure SeverityThresholds where
  critical : ℚ
  high : ℚ
  medium : ℚ
  low : ℚ
deriving DecidableEq

/-- Default `THRESHOLDS` values of `config.py`. -/
def THRESHOLDS : Thresholds :=
  { cpu_usage := 80, memory_usage := 85, swap_usage := 50, disk_usage := 90,
    iowait := 20, load1_per_cpu := 2, network_errors_per_sec := 10,
    tcp_retrans_per_sec := 50 }

/-- Default `SEVERITY_WEIGHTS` values of `config.py`. -/
def SEVERITY_WEIGHTS : Weights :=
  { system_down := 100, cpu_high := 30, iowait_high := 20, load_extreme := 15,
    memory_high := 25, swap_high := 20, disk_high := 20, fs_readonly := 50,
    network_errors := 15, tcp_retrans := 15, tcp_overflow := 20 }

/-- Default `SEVERITY_THRESHOLDS` values of `config.py`. -/
def SEVERITY_THRESHOLDS : SeverityThresholds :=
  { critical := 80, high := 40, medium := 20, low := 1 }

/-- `CRITICAL_USAGE_THRESHOLD = 95` of `anomaly_detector.py`. -/
def CRITICAL_USAGE_THRESHOLD : ℚ := 95

/-- One entry of the `anomalies` list built by `detect`: the fields
`threshold` and `mountpoint` are only present for some rules. -/
structure Anomaly where
  metric : String
  message : String
  severity : String
  value : ℚ
  threshold : Option ℚ
  mountpoint : Option Val

/-- An `AnomalyDetector` after `__init__`: the three injected (or
defaulted) configurations. -/
structure Detector where
  thresholds : Thresholds
  weights : Weights
  severity_thresholds : SeverityThresholds

/-- `AnomalyDetector()` built with all three arguments left `None`. -/
def defaultDetector : Detector :=
  { thresholds := THRESHOLDS, weights := SEVERITY_WEIGHTS,
    severity_thresholds := SEVERITY_THRESHOLDS }

/-- The running state of `detect`: the anomaly records appended so far and
the accumulated `severity_score`. -/
abbrev RunAcc := List Anomaly × ℚ

/-- Sequencing of two independent checks of `detect`: contributions are
concatenated in program order and the first raised error wins. -/
def combine (x y : Except String RunAcc) : Except String RunAcc :=
  match x, y with
  | Except.ok a, Except.ok b => Except.ok (a.1 ++ b.1, a.2 + b.2)
  | Except.error e, _ => Except.error e
  | _, Except.error e => Except.error e

/-- Check 1 of `detect`: `summary.get("up") == 0`. -/
def check_up (w : Weights) (s : Summary) : Except String RunAcc :=
  if pyEqZero (pyGet s "up") then
    Except.ok ([{ metric := "up", message := "監視対象がダウンしています",
                  severity := "critical", value := 0,
                  threshold := Option.none, mountpoint := Option.none }],
               w.system_down)
  else Except.ok ([], 0)

/-- Check 2 of `detect`: `cpu_usage is not None and cpu_usage > thresholds["cpu_usage"]`;
a non-numeric non-`None` value raises `TypeError` at the comparison. -/
def check_cpu (thr : Thresholds) (w : Weights) (s : Summary) : Except String RunAcc :=
  match pyGet s "cpu_usage" with
  | Val.none => Except.ok ([], 0)
  | Val.num cpu_usage =>
      if cpu_usage > thr.cpu_usage then
        Except.ok ([{ metric := "cpu_usage",
                      message := "CPU使用率が高い (" ++ fmt1 cpu_usage ++ "%)",
                      severity := if cpu_usage < CRITICAL_USAGE_THRESHOLD
                                  then "warning" else "critical",
                      value := cpu_usage, threshold := some thr.cpu_usage,
                      mountpoint := Option.none }],
                   pymin w.cpu_high ((cpu_usage - thr.cpu_usage) / 2))
      else Except.ok ([], 0)
  | _ => Except.error "TypeError"

/-- Check 3 of `detect`: `iowait is not None and iowait > thresholds["iowait"]`. -/
def check_iowait (thr : Thresholds) (w : Weights) (s : Summary) : Except String RunAcc :=
  match pyGet s "cpu_iowait" with
  | Val.none => Except.ok ([], 0)
  | Val.num iowait =>
      if iowait > thr.iowait then
        Except.ok ([{ metric := "cpu_iowait",
                      message := "I/O待ちが多い (" ++ fmt1 iowait ++ "%)",
                      severity := "warning", value := iowait,
                      threshold := some thr.iowait, mountpoint := Option.none }],
                   pymin w.iowait_high (iowait - thr.iowait))
      else Except.ok ([], 0)
  | _ => Except.error "TypeError"

/-- Check 4 of `detect`: `load1 is not None` and `load1 > 10` with the
hardcoded `extreme_load_threshold = 10`. -/
def check_load1 (w : Weights) (s : Summary) : Except String RunAcc :=
  match pyGet s "load1" with
  | Val.none => Except.ok ([], 0)
  | Val.num load1 =>
      let extreme_load_threshold : ℚ := 10
      if load1 > extreme_load_threshold then
        Except.ok ([{ metric := "load1",
                      message := "Load Average (1分) が高い (" ++ fmt2 load1 ++ ")",
                      severity := "warning", value := load1,
                      threshold := Option.none, mountpoint := Option.none }],
                   pymin w.load_extreme load1)
      else Except.ok ([], 0)
  | _ => Except.error "TypeError"

/-- Check 5 of `detect`: memory, same shape as the CPU check. -/
def check_memory (thr : Thresholds) (w : Weights) (s : Summary) : Except String RunAcc :=
  match pyGet s "memory_usage" with
  | Val.none => Except.ok ([], 0)
  | Val.num memory_usage =>
      if memory_usage > thr.memory_usage then
        Except.ok ([{ metric := "memory_usage",
                      message := "メモリ使用率が高い (" ++ fmt1 memory_usage ++ "%)",
                      severity := if memory_usage < CRITICAL_USAGE_THRESHOLD
                                  then "warning" else "critical",
                      value := memory_usage, threshold := some thr.memory_usage,
                      mountpoint := Option.none }],
                   pymin w.memory_high ((memory_usage - thr.memory_usage) / 2))
      else Except.ok ([], 0)
  | _ => Except.error "TypeError"

/-- Check 6 of `detect`: swap. -/
def check_swap (thr : Thresholds) (w : Weights) (s : Summary) : Except String RunAcc :=
  match pyGet s "swap_usage" with
  | Val.none => Except.ok ([], 0)
  | Val.num swap_usage =>
      if swap_usage > thr.swap_usage then
        Except.ok ([{ metric := "swap_usage",
                      message := "スワップ使用率が高い (" ++ fmt1 swap_usage ++ "%)",
                      severity := "warning", value := swap_usage,
                      threshold := some thr.swap_usage, mountpoint := Option.none }],
                   pymin w.swap_high (swap_usage - thr.swap_usage))
      else Except.ok ([], 0)
  | _ => Except.error "TypeError"

/-- One iteration of the filesystem loop of `detect`: `fs.get("value")`,
the per-entry threshold test, and `fs.get("labels", \x7b\x7d).get("mountpoint", "unknown")`.
A non-dict entry raises `AttributeError` at `fs.get`; a non-numeric
non-`None` usage raises `TypeError`; a non-dict `labels` raises
`AttributeError` at the inner `.get`. -/
def check_fs_entry (thr : Thresholds) (w : Weights) (fs : Val) : Except String RunAcc :=
  match fs with
  | Val.dict d =>
      match pyGetD d "value" Val.none with
      | Val.none => Except.ok ([], 0)
      | Val.num usage =>
          if usage > thr.disk_usage then
            match pyGetD d "labels" (Val.dict []) with
            | Val.dict labels =>
                let mountpoint := pyGetD labels "mountpoint" (Val.str "unknown")
                Except.ok ([{ metric := "fs_usage",
                              message := "ディスク使用率が高い (" ++ pyStr mountpoint
                                         ++ ": " ++ fmt1 usage ++ "%)",
                              severity := if usage < CRITICAL_USAGE_THRESHOLD
                                          then "warning" else "critical",
                              value := usage, threshold := some thr.disk_usage,
                              mountpoint := some mountpoint }],
                           pymin w.disk_high ((usage - thr.disk_usage) / 2))
            | _ => Except.error "AttributeError"
          else Except.ok ([], 0)
      | _ => Except.error "TypeError"
  | _ => Except.error "AttributeError"

/-- The filesystem loop of `detect` over the entries of `fs_usage_top3`,
in list order. -/
def check_fs_list (thr : Thresholds) (w : Weights) : List Val → Except String RunAcc
  | [] => Except.ok ([], 0)
  | e :: rest => combine (check_fs_entry thr w e) (check_fs_list thr w rest)

/-- Check 7 of `detect`: `if fs_top3 and isinstance(fs_top3, list)`.
A non-list value (whatever its truthiness) skips the check, as does an
empty (falsy) list; a non-empty list is iterated. -/
def check_fs (thr : Thresholds) (w : Weights) (s : Summary) : Except String RunAcc :=
  match pyGet s "fs_usage_top3" with
  | Val.list es => if es.isEmpty then Except.ok ([], 0) else check_fs_list thr w es
  | _ => Except.ok ([], 0)

/-- Check 8 of `detect`: `summary.get("fs_readonly", 0) > 0`; a present
non-numeric value (including `None`) raises `TypeError` at the comparison. -/
def check_fs_readonly (w : Weights) (s : Summary) : Except String RunAcc :=
  match pyGetD s "fs_readonly" (Val.num 0) with
  | Val.num v =>
      if v > 0 then
        Except.ok ([{ metric := "fs_readonly",
                      message := "読み取り専用のファイルシステムが存在",
                      severity := "critical", value := 1,
                      threshold := Option.none, mountpoint := Option.none }],
                   w.fs_readonly)
      else Except.ok ([], 0)
  | _ => Except.error "TypeError"

/-- Check 9 of `detect`: `summary.get("network_err_per_sec", 0)` against
`thresholds["network_errors_per_sec"]`. -/
def check_net_err (thr : Thresholds) (w : Weights) (s : Summary) : Except String RunAcc :=
  match pyGetD s "network_err_per_sec" (Val.num 0) with
  | Val.num net_err =>
      if net_err > thr.network_errors_per_sec then
        Except.ok ([{ metric := "network_err_per_sec",
                      message := "ネットワークエラーが多い (" ++ fmt1 net_err ++ "/秒)",
                      severity := "warning", value := net_err,
                      threshold := some thr.network_errors_per_sec,
                      mountpoint := Option.none }],
                   pymin w.network_errors (net_err - thr.network_errors_per_sec))
      else Except.ok ([], 0)
  | _ => Except.error "TypeError"

/-- Check 10 of `detect`: TCP retransmissions, with divisor 5. -/
def check_tcp_retrans (thr : Thresholds) (w : Weights) (s : Summary) : Except String RunAcc :=
  match pyGetD s "tcp_retrans_per_sec" (Val.num 0) with
  | Val.num tcp_retrans =>
      if tcp_retrans > thr.tcp_retrans_per_sec then
        Except.ok ([{ metric := "tcp_retrans_per_sec",
                      message := "TCP再送が多い (" ++ fmt1 tcp_retrans ++ "/秒)",
                      severity := "warning", value := tcp_retrans,
                      threshold := some thr.tcp_retrans_per_sec,
                      mountpoint := Option.none }],
                   pymin w.tcp_retrans ((tcp_retrans - thr.tcp_retrans_per_sec) / 5))
      else Except.ok ([], 0)
  | _ => Except.error "TypeError"

/-- Check 11 of `detect`: `summary.get("tcp_listen_overflow_per_sec", 0) > 0`,
score contribution `min(weights["tcp_overflow"], tcp_overflow * 2)`. -/
def check_tcp_overflow (w : Weights) (s : Summary) : Except String RunAcc :=
  match pyGetD s "tcp_listen_overflow_per_sec" (Val.num 0) with
  | Val.num tcp_overflow =>
      if tcp_overflow > 0 then
        Except.ok ([{ metric := "tcp_listen_overflow_per_sec",
                      message := "TCPリッスンキューがあふれている ("
                                 ++ fmt1 tcp_overflow ++ "/秒)",
                      severity := "warning", value := tcp_overflow,
                      threshold := Option.none, mountpoint := Option.none }],
                   pymin w.tcp_overflow (tcp_overflow * 2))
      else Except.ok ([], 0)
  | _ => Except.error "TypeError"

/-- The body of `detect` before the final aggregation: the eleven checks
in program order, accumulating anomaly records and the raw score. -/
def evalRules (thr : Thresholds) (w : Weights) (s : Summary) : Except String RunAcc :=
  combine (check_up w s)
    (combine (check_cpu thr w s)
      (combine (check_iowait thr w s)
        (combine (check_load1 w s)
          (combine (check_memory thr w s)
            (combine (check_swap thr w s)
              (combine (check_fs thr w s)
                (combine (check_fs_readonly w s)
                  (combine (check_net_err thr w s)
                    (combine (check_tcp_retrans thr w s)
                      (check_tcp_overflow w s))))))))))

/-- `AnomalyDetector._calculate_severity`. -/
def calculate_severity (st : SeverityThresholds) (score : ℚ) : String :=
  if score ≥ st.critical then "critical"
  else if score ≥ st.high then "high"
  else if score ≥ st.medium then "medium"
  else if score ≥ st.low then "low"
  else "normal"

/-- The result dict of `detect`. -/
structure DetectResult where
  is_anomaly : Bool
  anomalies : List Anomaly
  severity : String
  severity_score : ℚ
  anomaly_count : ℕ

/-- `AnomalyDetector.detect`: run the checks, classify the raw score, and
clamp the score only in the `severity_score` field of the result. -/
def detect (D : Detector) (s : Summary) : Except String DetectResult :=
  match evalRules D.thresholds D.weights s with
  | Except.error e => Except.error e
  | Except.ok (anomalies, severity_score) =>
      Except.ok { is_anomaly := decide (0 < anomalies.length),
                  anomalies := anomalies,
                  severity := calculate_severity D.severity_thresholds severity_score,
                  severity_score := pymin 100 severity_score,
                  anomaly_count := anomalies.length }

/-- Rank of a severity tier in the order `normal < low < medium < high < critical`. -/
def tierRank (t : String) : ℕ :=
  if t = "critical" then 4
  else if t = "high" then 3
  else if t = "medium" then 2
  else if t = "low" then 1
  else 0

/-- The `THRESHOLDS` dict of `config.py` with its key/value pairs. -/
def THRESHOLDS_items : List (String × ℚ) :=
  [("cpu_usage", 80), ("memory_usage", 85), ("swap_usage", 50), ("disk_usage", 90),
   ("iowait", 20), ("load1_per_cpu", 2), ("network_errors_per_sec", 10),
   ("tcp_retrans_per_sec", 50)]

/-- The `SEVERITY_WEIGHTS` dict of `config.py` with its key/value pairs. -/
def SEVERITY_WEIGHTS_items : List (String × ℚ) :=
  [("system_down", 100), ("cpu_high", 30), ("iowait_high", 20), ("load_extreme", 15),
   ("memory_high", 25), ("swap_high", 20), ("disk_high", 20), ("fs_readonly", 50),
   ("network_errors", 15), ("tcp_retrans", 15), ("tcp_overflow", 20)]

/-- The `SEVERITY_THRESHOLDS` dict of `config.py` with its key/value pairs. -/
def SEVERITY_THRESHOLDS_items : List (String × ℚ) :=
  [("critical", 80), ("high", 40), ("medium", 20), ("low", 1)]

/-- Python `x or default` applied to an optional dict argument of
`AnomalyDetector.__init__`: both `None` and an empty (falsy) dict are
replaced by the baked-in default. -/
def orDefault (x : Option (List (String × ℚ))) (dflt : List (String × ℚ)) :
    List (String × ℚ) :=
  match x with
  | Option.none => dflt
  | some d => if d.isEmpty then dflt else d

/-- The dict-valued attributes set by `AnomalyDetector.__init__`. -/
structure AnomalyDetector where
  thresholds : List (String × ℚ)
  weights : List (String × ℚ)
  severity_thresholds : List (String × ℚ)
deriving DecidableEq

/-- `AnomalyDetector.__init__(thresholds, weights, severity_thresholds)`:
each argument defaults to the corresponding `config.py` dict via `or`. -/
def mkAnomalyDetector (thresholds weights severity_thresholds :
    Option (List (String × ℚ))) : AnomalyDetector :=
  { thresholds := orDefault thresholds THRESHOLDS_items,
    weights := orDefault weights SEVERITY_WEIGHTS_items,
    severity_thresholds := orDefault severity_thresholds SEVERITY_THRESHOLDS_items }

/-- A scalar field read through `summary.get(k)` and guarded by
`is not None`: it is handled without error iff it is `None` or a number. -/
def scalarOK : Val → Bool
  | Val.none => true
  | Val.num _ => true
  | _ => false

/-- A field read through `summary.get(k, 0)` and compared at once: it is
handled without error iff it is a number. -/
def numOK : Val → Bool
  | Val.num _ => true
  | _ => false

/-- One entry of `fs_usage_top3` that the filesystem loop handles without
error: a dict whose `value` is absent, `None` or a number, and whose
`labels` is absent or a dict. -/
def entryOK : Val → Bool
  | Val.dict d =>
      (match pyGetD d "value" Val.none with
       | Val.none => true
       | Val.num _ => true
       | _ => false) &&
      (match pyGetD d "labels" (Val.dict []) with
       | Val.dict _ => true
       | _ => false)
  | _ => false

/-- A `fs_usage_top3` value the filesystem check handles without error:
any non-list is skipped, a list must consist of well-shaped entries. -/
def fsOK : Val → Bool
  | Val.list es => es.all entryOK
  | _ => true

/-- Shape condition on one summary binding under which `detect` raises no
runtime error for the corresponding sub-check. -/
def fieldOK (k : String) (v : Val) : Bool :=
  if k = "cpu_usage" || k = "cpu_iowait" || k = "load1" || k = "memory_usage"
      || k = "swap_usage" then scalarOK v
  else if k = "network_err_per_sec" || k = "tcp_retrans_per_sec"
      || k = "tcp_listen_overflow_per_sec" || k = "fs_readonly" then numOK v
  else if k = "fs_usage_top3" then fsOK v
  else true

/-- A summary on which `detect` raises no runtime error: every binding is
well shaped for the check that reads it. -/
def wellShaped (s : Summary) : Bool :=
  s.all fun kv => fieldOK kv.1 kv.2

/-- The record invariant of the spec: a non-empty message and a per-rule
severity tag of `warning` or `critical`. -/
def goodAnomaly (a : Anomaly) : Prop :=
  a.message ≠ "" ∧ (a.severity = "warning" ∨ a.severity = "critical")

/-- A string that extends a non-empty string on the right is non-empty. -/
theorem append_ne_empty (a b : String) (ha : a ≠ "") : a ++ b ≠ "" := by
  intro h
  apply ha
  have hd : a.data ++ b.data = ([] : List Char) := by
    have h2 := congrArg String.data h
    simpa [String.data_append] using h2
  rcases List.append_eq_nil.mp hd with ⟨h1, _⟩
  exact String.ext h1

/-- Every anomaly record a computation can deliver satisfies `goodAnomaly`. -/
def goodRun (x : Except String RunAcc) : Prop :=
  ∀ acc, x = Except.ok acc → ∀ a ∈ acc.1, goodAnomaly a

theorem combine_good {x y : Except String RunAcc} (hx : goodRun x) (hy : goodRun y) :
    goodRun (combine x y) := by
  intro acc h a ha
  unfold combine at h
  split at h
  · rename_i p q
    cases h
    rcases List.mem_append.mp ha with hm | hm
    · exact hx p rfl a hm
    · exact hy q rfl a hm
  · exact absurd h (by simp)
  · exact absurd h (by simp)

theorem check_up_good (w : Weights) (s : Summary) : goodRun (check_up w s) := by
  intro acc h a ha
  unfold check_up at h
  split at h <;> cases h <;> simp_all [goodAnomaly]

theorem check_cpu_good (thr : Thresholds) (w : Weights) (s : Summary) :
    goodRun (check_cpu thr w s) := by
  intro acc h a ha
  unfold check_cpu at h
  split at h
  · cases h; simp_all
  · split at h
    · cases h
      simp_all [goodAnomaly]
      constructor
      · exact append_ne_empty _ _ (append_ne_empty _ _ (by simp))
      · exact lt_or_ge _ _
    · cases h; simp_all
  · exact absurd h (by simp)

theorem check_iowait_good (thr : Thresholds) (w : Weights) (s : Summary) :
    goodRun (check_iowait thr w s) := by
  intro acc h a ha
  unfold check_iowait at h
  split at h
  · cases h; simp_all
  · split at h
    · cases h
      simp_all [goodAnomaly]
      exact append_ne_empty _ _ (append_ne_empty _ _ (by simp))
    · cases h; simp_all
  · exact absurd h (by simp)

theorem check_load1_good (w : Weights) (s : Summary) : goodRun (check_load1 w s) := by
  intro acc h a ha
  unfold check_load1 at h
  split at h
  · cases h; simp_all
  · simp only [] at h
    split at h
    · cases h
      simp_all [goodAnomaly]
      exact append_ne_empty _ _ (append_ne_empty _ _ (by simp))
    · cases h; simp_all
  · exact absurd h (by simp)

theorem check_memory_good (thr : Thresholds) (w : Weights) (s : Summary) :
    goodRun (check_memory thr w s) := by
  intro acc h a ha
  unfold check_memory at h
  split at h
  · cases h; simp_all
  · split at h
    · cases h
      simp_all [goodAnomaly]
      constructor
      · exact append_ne_empty _ _ (append_ne_empty _ _ (by simp))
      · exact lt_or_ge _ _
    · cases h; simp_all
  · exact absurd h (by simp)

theorem check_swap_good (thr : Thresholds) (w : Weights) (s : Summary) :
    goodRun (check_swap thr w s) := by
  intro acc h a ha
  unfold check_swap at h
  split at h
  · cases h; simp_all
  · split at h
    · cases h
      simp_all [goodAnomaly]
      exact append_ne_empty _ _ (append_ne_empty _ _ (by simp))
    · cases h; simp_all
  · exact absurd h (by simp)

theorem check_fs_entry_good (thr : Thresholds) (w : Weights) (fs : Val) :
    goodRun (check_fs_entry thr w fs) := by
  intro acc h a ha
  unfold check_fs_entry at h
  split at h
  · split at h
    · cases h; simp_all
    · split at h
      · split at h
        · cases h
          simp_all [goodAnomaly]
          constructor
          · exact append_ne_empty _ _
              (append_ne_empty _ _ (append_ne_empty _ _ (append_ne_empty _ _ (by simp))))
          · exact lt_or_ge _ _
        · exact absurd h (by simp)
      · cases h; simp_all
    · exact absurd h (by simp)
  · exact absurd h (by simp)

theorem check_fs_list_good (thr : Thresholds) (w : Weights) (es : List Val) :
    goodRun (check_fs_list thr w es) := by
  induction es with
  | nil => intro acc h a ha; cases h; simp_all
  | cons e rest ih => exact combine_good (check_fs_entry_good thr w e) ih

theorem check_fs_good (thr : Thresholds) (w : Weights) (s : Summary) :
    goodRun (check_fs thr w s) := by
  unfold check_fs
  split
  · split
    · intro acc h a ha; cases h; simp_all
    · exact check_fs_list_good thr w _
  · intro acc h a ha; cases h; simp_all

theorem check_fs_readonly_good (w : Weights) (s : Summary) :
    goodRun (check_fs_readonly w s) := by
  intro acc h a ha
  unfold check_fs_readonly at h
  split at h
  · split at h <;> cases h <;> simp_all [goodAnomaly]
  · exact absurd h (by simp)

theorem check_net_err_good (thr : Thresholds) (w : Weights) (s : Summary) :
    goodRun (check_net_err thr w s) := by
  intro acc h a ha
  unfold check_net_err at h
  split at h
  · split at h
    · cases h
      simp_all [goodAnomaly]
      exact append_ne_empty _ _ (append_ne_empty _ _ (by simp))
    · cases h; simp_all
  · exact absurd h (by simp)

theorem check_tcp_retrans_good (thr : Thresholds) (w : Weights) (s : Summary) :
    goodRun (check_tcp_retrans thr w s) := by
  intro acc h a ha
  unfold check_tcp_retrans at h
  split at h
  · split at h
    · cases h
      simp_all [goodAnomaly]
      exact append_ne_empty _ _ (append_ne_empty _ _ (by simp))
    · cases h; simp_all
  · exact absurd h (by simp)

theorem check_tcp_overflow_good (w : Weights) (s : Summary) :
    goodRun (check_tcp_overflow w s) := by
  intro acc h a ha
  unfold check_tcp_overflow at h
  split at h
  · split at h
    · cases h
      simp_all [goodAnomaly]
      exact append_ne_empty _ _ (append_ne_empty _ _ (by simp))
    · cases h; simp_all
  · exact absurd h (by simp)

theorem evalRules_good (thr : Thresholds) (w : Weights) (s : Summary) :
    goodRun (evalRules thr w s) :=
  combine_good (check_up_good w s)
    (combine_good (check_cpu_good thr w s)
      (combine_good (check_iowait_good thr w s)
        (combine_good (check_load1_good w s)
          (combine_good (check_memory_good thr w s)
            (combine_good (check_swap_good thr w s)
              (combine_good (check_fs_good thr w s)
                (combine_good (check_fs_readonly_good w s)
                  (combine_good (check_net_err_good thr w s)
                    (combine_good (check_tcp_retrans_good thr w s)
                      (check_tcp_overflow_good w s))))))))))

/-- A computation that cannot raise: it delivers some accumulator. -/
def okRun (x : Except String RunAcc) : Prop :=
  ∃ acc, x = Except.ok acc

theorem combine_okRun {x y : Except String RunAcc} (hx : okRun x) (hy : okRun y) :
    okRun (combine x y) := by
  rcases hx with ⟨a, ha⟩
  rcases hy with ⟨b, hb⟩
  exact ⟨_, by rw [ha, hb]; rfl⟩

theorem okRun_ite (c : Prop) [Decidable c] (x y : RunAcc) :
    okRun (if c then Except.ok x else Except.ok y) := by
  by_cases h : c
  · rw [if_pos h]; exact ⟨_, rfl⟩
  · rw [if_neg h]; exact ⟨_, rfl⟩

theorem lookup_fieldOK {s : Summary} {k : String} {v : Val}
    (hws : wellShaped s = true) (hl : lookupS s k = some v) : fieldOK k v = true := by
  induction s with
  | nil => simp [lookupS] at hl
  | cons kv rest ih =>
      obtain ⟨k2, v2⟩ := kv
      have hws2 : fieldOK k2 v2 = true ∧ wellShaped rest = true := by
        simpa [wellShaped] using hws
      unfold lookupS at hl
      split at hl
      · rename_i hk
        cases hl
        exact hk ▸ hws2.1
      · exact ih hws2.2 hl

theorem check_up_ok (w : Weights) (s : Summary) : okRun (check_up w s) := by
  unfold check_up
  split <;> exact ⟨_, rfl⟩

theorem check_cpu_ok (thr : Thresholds) (w : Weights) (s : Summary)
    (hws : wellShaped s = true) : okRun (check_cpu thr w s) := by
  unfold check_cpu pyGet pyGetD
  rcases hl : lookupS s "cpu_usage" with _ | v
  · exact ⟨_, rfl⟩
  · have hf := lookup_fieldOK hws hl
    simp [fieldOK] at hf
    cases v <;> simp_all [scalarOK]
    · exact ⟨_, rfl⟩
    · split <;> exact ⟨_, rfl⟩

theorem check_iowait_ok (thr : Thresholds) (w : Weights) (s : Summary)
    (hws : wellShaped s = true) : okRun (check_iowait thr w s) := by
  unfold check_iowait pyGet pyGetD
  rcases hl : lookupS s "cpu_iowait" with _ | v
  · exact ⟨_, rfl⟩
  · have hf := lookup_fieldOK hws hl
    simp [fieldOK] at hf
    cases v <;> simp_all [scalarOK]
    · exact ⟨_, rfl⟩
    · split <;> exact ⟨_, rfl⟩

theorem check_load1_ok (w : Weights) (s : Summary)
    (hws : wellShaped s = true) : okRun (check_load1 w s) := by
  unfold check_load1 pyGet pyGetD
  rcases hl : lookupS s "load1" with _ | v
  · exact ⟨_, rfl⟩
  · have hf := lookup_fieldOK hws hl
    simp [fieldOK] at hf
    cases v <;> simp_all [scalarOK]
    · exact ⟨_, rfl⟩
    · split <;> exact ⟨_, rfl⟩

theorem check_memory_ok (thr : Thresholds) (w : Weights) (s : Summary)
    (hws : wellShaped s = true) : okRun (check_memory thr w s) := by
  unfold check_memory pyGet pyGetD
  rcases hl : lookupS s "memory_usage" with _ | v
  · exact ⟨_, rfl⟩
  · have hf := lookup_fieldOK hws hl
    simp [fieldOK] at hf
    cases v <;> simp_all [scalarOK]
    · exact ⟨_, rfl⟩
    · split <;> exact ⟨_, rfl⟩

theorem check_swap_ok (thr : Thresholds) (w : Weights) (s : Summary)
    (hws : wellShaped s = true) : okRun (check_swap thr w s) := by
  unfold check_swap pyGet pyGetD
  rcases hl : lookupS s "swap_usage" with _ | v
  · exact ⟨_, rfl⟩
  · have hf := lookup_fieldOK hws hl
    simp [fieldOK] at hf
    cases v <;> simp_all [scalarOK]
    · exact ⟨_, rfl⟩
    · split <;> exact ⟨_, rfl⟩

theorem check_fs_entry_ok (thr : Thresholds) (w : Weights) (e : Val)
    (he : entryOK e = true) : okRun (check_fs_entry thr w e) := by
  cases e with
  | dict d =>
      have hv : (match pyGetD d "value" Val.none with
                 | Val.none => true | Val.num _ => true | _ => false) = true ∧
                (match pyGetD d "labels" (Val.dict []) with
                 | Val.dict _ => true | _ => false) = true := by
        simpa [entryOK] using he
      obtain ⟨hv1, hv2⟩ := hv
      unfold check_fs_entry
      dsimp only
      rcases hval : pyGetD d "value" Val.none with _ | u | sv | lv | dv
      · exact ⟨_, rfl⟩
      · dsimp only
        by_cases hcond : u > thr.disk_usage
        · rw [if_pos hcond]
          rcases hlabs : pyGetD d "labels" (Val.dict []) with _ | _ | _ | _ | ls <;>
            rw [hlabs] at hv2 <;> simp at hv2
          exact ⟨_, rfl⟩
        · rw [if_neg hcond]
          exact ⟨_, rfl⟩
      · rw [hval] at hv1; simp at hv1
      · rw [hval] at hv1; simp at hv1
      · rw [hval] at hv1; simp at hv1
  | none => simp [entryOK] at he
  | num q => simp [entryOK] at he
  | str sv => simp [entryOK] at he
  | list lv => simp [entryOK] at he

theorem check_fs_list_ok (thr : Thresholds) (w : Weights) (es : List Val)
    (hes : es.all entryOK = true) : okRun (check_fs_list thr w es) := by
  induction es with
  | nil => exact ⟨_, rfl⟩
  | cons e rest ih =>
      simp only [List.all_cons, Bool.and_eq_true] at hes
      exact combine_okRun (check_fs_entry_ok thr w e hes.1) (ih hes.2)

theorem check_fs_ok (thr : Thresholds) (w : Weights) (s : Summary)
    (hws : wellShaped s = true) : okRun (check_fs thr w s) := by
  unfold check_fs pyGet pyGetD
  rcases hl : lookupS s "fs_usage_top3" with _ | v
  · exact ⟨_, rfl⟩
  · have hf := lookup_fieldOK hws hl
    simp [fieldOK] at hf
    cases v <;> try exact ⟨_, rfl⟩
    rename_i es
    simp [fsOK] at hf
    dsimp only
    by_cases hemp : es.isEmpty = true
    · rw [if_pos hemp]; exact ⟨_, rfl⟩
    · rw [if_neg hemp]; exact check_fs_list_ok thr w es (by simpa using hf)

theorem check_fs_readonly_ok (w : Weights) (s : Summary)
    (hws : wellShaped s = true) : okRun (check_fs_readonly w s) := by
  unfold check_fs_readonly pyGetD
  rcases hl : lookupS s "fs_readonly" with _ | v
  · dsimp only; exact okRun_ite _ _ _
  · have hf := lookup_fieldOK hws hl
    simp [fieldOK] at hf
    cases v <;> simp_all [numOK]
    exact okRun_ite _ _ _

theorem check_net_err_ok (thr : Thresholds) (w : Weights) (s : Summary)
    (hws : wellShaped s = true) : okRun (check_net_err thr w s) := by
  unfold check_net_err pyGetD
  rcases hl : lookupS s "network_err_per_sec" with _ | v
  · dsimp only; exact okRun_ite _ _ _
  · have hf := lookup_fieldOK hws hl
    simp [fieldOK] at hf
    cases v <;> simp_all [numOK]
    exact okRun_ite _ _ _

theorem check_tcp_retrans_ok (thr : Thresholds) (w : Weights) (s : Summary)
    (hws : wellShaped s = true) : okRun (check_tcp_retrans thr w s) := by
  unfold check_tcp_retrans pyGetD
  rcases hl : lookupS s "tcp_retrans_per_sec" with _ | v
  · dsimp only; exact okRun_ite _ _ _
  · have hf := lookup_fieldOK hws hl
    simp [fieldOK] at hf
    cases v <;> simp_all [numOK]
    exact okRun_ite _ _ _

theorem check_tcp_overflow_ok (w : Weights) (s : Summary)
    (hws : wellShaped s = true) : okRun (check_tcp_overflow w s) := by
  unfold check_tcp_overflow pyGetD
  rcases hl : lookupS s "tcp_listen_overflow_per_sec" with _ | v
  · dsimp only; exact okRun_ite _ _ _
  · have hf := lookup_fieldOK hws hl
    simp [fieldOK] at hf
    cases v <;> simp_all [numOK]
    exact okRun_ite _ _ _

theorem evalRules_ok (thr : Thresholds) (w : Weights) (s : Summary)
    (hws : wellShaped s = true) : okRun (evalRules thr w s) :=
  combine_okRun (check_up_ok w s)
    (combine_okRun (check_cpu_ok thr w s hws)
      (combine_okRun (check_iowait_ok thr w s hws)
        (combine_okRun (check_load1_ok w s hws)
          (combine_okRun (check_memory_ok thr w s hws)
            (combine_okRun (check_swap_ok thr w s hws)
              (combine_okRun (check_fs_ok thr w s hws)
                (combine_okRun (check_fs_readonly_ok w s hws)
                  (combine_okRun (check_net_err_ok thr w s hws)
                    (combine_okRun (check_tcp_retrans_ok thr w s hws)
                      (check_tcp_overflow_ok w s hws))))))))))

/-- C1: for every summary and configs, the severity tier of the result of
`detect` is computed by `calculate_severity` from the raw accumulated score
before any clamping, while the `severity_score` field equals
`min(100, raw score)`; in particular the summary `up=0, fs_readonly=1`
accumulates the raw score 150 under the default weights and yields severity
`critical` together with `severity_score = 100`. -/
theorem severity_from_raw_score (D : Detector) (s : Summary)
    (anoms : List Anomaly) (score : ℚ)
    (h : evalRules D.thresholds D.weights s = Except.ok (anoms, score)) :
    detect D s = Except.ok
      { is_anomaly := decide (0 < anoms.length), anomalies := anoms,
        severity := calculate_severity D.severity_thresholds score,
        severity_score := pymin 100 score, anomaly_count := anoms.length } ∧
    (evalRules THRESHOLDS SEVERITY_WEIGHTS
        [("up", Val.num 0), ("fs_readonly", Val.num 1)]).map (fun acc => acc.2) =
      Except.ok 150 ∧
    (detect defaultDetector [("up", Val.num 0), ("fs_readonly", Val.num 1)]).map
      (fun r => (r.severity, r.severity_score)) = Except.ok ("critical", 100) := by
  refine ⟨by simp [detect, h], ?_, ?_⟩ <;>
  simp [detect, evalRules, check_up, check_cpu, check_iowait, check_load1,
    check_memory, check_swap, check_fs, check_fs_list, check_fs_entry,
    check_fs_readonly, check_net_err, check_tcp_retrans, check_tcp_overflow,
    pyGet, pyGetD, lookupS, pyEqZero, pyStr, pymin, combine, calculate_severity,
    CRITICAL_USAGE_THRESHOLD, THRESHOLDS, SEVERITY_WEIGHTS, SEVERITY_THRESHOLDS,
    defaultDetector] <;>
  norm_num [combine, calculate_severity, pymin, Except.map]

/-- Witness for C1 at the empty summary, whose rule evaluation yields no
anomaly and the raw score 0. -/
theorem severity_from_raw_score_witness :
    evalRules defaultDetector.thresholds defaultDetector.weights [] =
      Except.ok ([], 0) ∧
    detect defaultDetector [] = Except.ok
      { is_anomaly := decide (0 < ([] : List Anomaly).length), anomalies := [],
        severity := calculate_severity defaultDetector.severity_thresholds 0,
        severity_score := pymin 100 0, anomaly_count := ([] : List Anomaly).length } := by
  have h : evalRules defaultDetector.thresholds defaultDetector.weights [] =
      Except.ok ([], 0) := by
    simp [evalRules, check_up, check_cpu, check_iowait, check_load1,
      check_memory, check_swap, check_fs, check_fs_list, check_fs_entry,
      check_fs_readonly, check_net_err, check_tcp_retrans, check_tcp_overflow,
      pyGet, pyGetD, lookupS, pyEqZero, pymin, combine, THRESHOLDS,
      SEVERITY_WEIGHTS, defaultDetector] <;>
    norm_num [combine, pymin]
  exact ⟨h, (severity_from_raw_score defaultDetector [] [] 0 h).1⟩

/-- C2 (amended): `detect` raises no error on any summary whose bindings are
well shaped in the sense of `wellShaped`: fields guarded by `is not None`
may be absent, null or numeric, `fs_usage_top3` may be absent, null, a
non-list or a list of well-shaped entries, but the four fields read with a
`.get(k, 0)` default must be numeric when present. -/
theorem detect_no_error_on_wellShaped (D : Detector) (s : Summary)
    (hws : wellShaped s = true) : ∃ r, detect D s = Except.ok r := by
  obtain ⟨acc, hacc⟩ := evalRules_ok D.thresholds D.weights s hws
  obtain ⟨anoms, score⟩ := acc
  exact ⟨_, by unfold detect; rw [hacc]⟩

/-- Witness for C2 (amended): a summary with a null CPU field and a
non-list `fs_usage_top3` is handled without error. -/
theorem detect_no_error_on_wellShaped_witness :
    wellShaped [("cpu_usage", Val.none), ("fs_usage_top3", Val.num 5)] = true ∧
    ∃ r, detect defaultDetector
        [("cpu_usage", Val.none), ("fs_usage_top3", Val.num 5)] = Except.ok r :=
  ⟨by decide, detect_no_error_on_wellShaped defaultDetector _ (by decide)⟩

/-- Counterexample to C2 as stated: a present null value for
`network_err_per_sec` or `fs_readonly` raises a `TypeError` at the
comparison, and a malformed entry inside a list `fs_usage_top3` raises an
`AttributeError` at `fs.get`, rather than being skipped. -/
theorem detect_error_on_malformed_field :
    detect defaultDetector [("network_err_per_sec", Val.none)] =
      Except.error "TypeError" ∧
    detect defaultDetector [("fs_readonly", Val.none)] =
      Except.error "TypeError" ∧
    detect defaultDetector [("fs_usage_top3", Val.list [Val.num 5])] =
      Except.error "AttributeError" := by
  refine ⟨?_, ?_, ?_⟩ <;>
  simp [detect, evalRules, check_up, check_cpu, check_iowait, check_load1,
    check_memory, check_swap, check_fs, check_fs_list, check_fs_entry,
    check_fs_readonly, check_net_err, check_tcp_retrans, check_tcp_overflow,
    pyGet, pyGetD, lookupS, pyEqZero, pyStr, pymin, combine, calculate_severity,
    CRITICAL_USAGE_THRESHOLD, THRESHOLDS, SEVERITY_WEIGHTS, SEVERITY_THRESHOLDS,
    defaultDetector] <;>
  norm_num [combine, calculate_severity, pymin, Except.map]

/-- C3: on the empty summary (every optional field absent) `detect` returns
no anomaly, the empty anomaly list, score 0 and severity `normal`. -/
theorem detect_empty_summary :
    detect defaultDetector [] =
      Except.ok { is_anomaly := false, anomalies := [], severity := "normal",
                  severity_score := 0, anomaly_count := 0 } := by
  simp [detect, evalRules, check_up, check_cpu, check_iowait, check_load1,
    check_memory, check_swap, check_fs, check_fs_list, check_fs_entry,
    check_fs_readonly, check_net_err, check_tcp_retrans, check_tcp_overflow,
    pyGet, pyGetD, lookupS, pyEqZero, pyStr, pymin, combine, calculate_severity,
    CRITICAL_USAGE_THRESHOLD, THRESHOLDS, SEVERITY_WEIGHTS, SEVERITY_THRESHOLDS,
    defaultDetector] <;>
  norm_num [combine, calculate_severity, pymin, Except.map]

/-- C4: for every strictly descending tier config, `calculate_severity`
selects the highest tier whose configured minimum is at most the raw score,
checked critical first, and `normal` when none matches; under the default
tier config this realizes the partition of the rational line into
`normal` below 1, `low` on `[1,20)`, `medium` on `[20,40)`, `high` on
`[40,80)` and `critical` from 80 on. -/
theorem calculate_severity_spec (st : SeverityThresholds) (s : ℚ)
    (hdesc : st.low ≤ st.medium ∧ st.medium ≤ st.high ∧ st.high ≤ st.critical) :
    ((calculate_severity st s = "critical" ↔ st.critical ≤ s) ∧
     (calculate_severity st s = "high" ↔ st.high ≤ s ∧ ¬ st.critical ≤ s) ∧
     (calculate_severity st s = "medium" ↔ st.medium ≤ s ∧ ¬ st.high ≤ s) ∧
     (calculate_severity st s = "low" ↔ st.low ≤ s ∧ ¬ st.medium ≤ s) ∧
     (calculate_severity st s = "normal" ↔ ¬ st.low ≤ s)) ∧
    ((calculate_severity SEVERITY_THRESHOLDS s = "normal" ↔ s < 1) ∧
     (calculate_severity SEVERITY_THRESHOLDS s = "low" ↔ 1 ≤ s ∧ s < 20) ∧
     (calculate_severity SEVERITY_THRESHOLDS s = "medium" ↔ 20 ≤ s ∧ s < 40) ∧
     (calculate_severity SEVERITY_THRESHOLDS s = "high" ↔ 40 ≤ s ∧ s < 80) ∧
     (calculate_severity SEVERITY_THRESHOLDS s = "critical" ↔ 80 ≤ s)) := by
  obtain ⟨h1, h2, h3⟩ := hdesc
  unfold calculate_severity SEVERITY_THRESHOLDS
  norm_num
  constructor
  · split_ifs <;> refine ⟨?_, ?_, ?_, ?_, ?_⟩ <;> simp_all <;>
      first
        | linarith
        | (intro h4; linarith)
        | (constructor <;> intro h4 <;> linarith)
  · split_ifs <;> refine ⟨?_, ?_, ?_, ?_, ?_⟩ <;> simp_all <;>
      first
        | linarith
        | (intro h4; linarith)
        | (constructor <;> intro h4 <;> linarith)

/-- Witness for C4: the default tier config is strictly descending and a
raw score of 100 is classified `critical`. -/
theorem calculate_severity_spec_witness :
    (SEVERITY_THRESHOLDS.low ≤ SEVERITY_THRESHOLDS.medium ∧
     SEVERITY_THRESHOLDS.medium ≤ SEVERITY_THRESHOLDS.high ∧
     SEVERITY_THRESHOLDS.high ≤ SEVERITY_THRESHOLDS.critical) ∧
    calculate_severity SEVERITY_THRESHOLDS 100 = "critical" :=
  ⟨by decide,
   ((calculate_severity_spec SEVERITY_THRESHOLDS 100 (by decide)).1.1).mpr (by decide)⟩

/-- C5: `calculate_severity` under the default tier config is total on raw
scores and monotone nondecreasing with respect to the tier order
`normal < low < medium < high < critical` measured by `tierRank`. -/
theorem calculate_severity_monotone (s1 s2 : ℚ) (h : s1 ≤ s2) :
    tierRank (calculate_severity SEVERITY_THRESHOLDS s1) ≤
      tierRank (calculate_severity SEVERITY_THRESHOLDS s2) := by
  unfold calculate_severity
  split_ifs <;> simp_all [SEVERITY_THRESHOLDS, tierRank] <;> linarith

/-- Witness for C5 at the scores 0 and 100. -/
theorem calculate_severity_monotone_witness :
    (0 : ℚ) ≤ 100 ∧
    tierRank (calculate_severity SEVERITY_THRESHOLDS 0) ≤
      tierRank (calculate_severity SEVERITY_THRESHOLDS 100) :=
  ⟨by decide, calculate_severity_monotone 0 100 (by decide)⟩

/-- C6: whenever `cpu_usage` exceeds the configured threshold `t` (all other
config values default), `detect` emits one cpu anomaly whose tag is
`warning` below the fixed 95 cutoff and `critical` from 95 on, independent
of `t`, with score contribution `min(30, (v - t)/2)`; concretely, 94.9
against the default threshold 80 tags `warning` and 95.0 tags `critical`,
both scored by the same formula. -/
theorem cpu_tag_flips_at_95 (t v : ℚ) (h : v > t) :
    (detect { defaultDetector with thresholds := { THRESHOLDS with cpu_usage := t } }
        [("cpu_usage", Val.num v)]).map
      (fun r => (r.anomalies.map (fun a => (a.metric, a.severity, a.value, a.threshold)),
                 r.severity_score, r.anomaly_count)) =
      Except.ok ([("cpu_usage", (if v < 95 then "warning" else "critical"), v, some t)],
                 pymin 100 (pymin 30 ((v - t) / 2)), 1) ∧
    (detect defaultDetector [("cpu_usage", Val.num (949/10))]).map
      (fun r => r.anomalies.map fun a => a.severity) = Except.ok ["warning"] ∧
    (detect defaultDetector [("cpu_usage", Val.num 95)]).map
      (fun r => r.anomalies.map fun a => a.severity) = Except.ok ["critical"] ∧
    (evalRules THRESHOLDS SEVERITY_WEIGHTS [("cpu_usage", Val.num (949/10))]).map
      (fun acc => acc.2) = Except.ok (pymin 30 ((949/10 - 80) / 2)) ∧
    (evalRules THRESHOLDS SEVERITY_WEIGHTS [("cpu_usage", Val.num 95)]).map
      (fun acc => acc.2) = Except.ok (pymin 30 ((95 - 80) / 2)) := by
  refine ⟨?_, ?_, ?_, ?_, ?_⟩ <;>
  simp [h, detect, evalRules, check_up, check_cpu, check_iowait, check_load1,
    check_memory, check_swap, check_fs, check_fs_list, check_fs_entry,
    check_fs_readonly, check_net_err, check_tcp_retrans, check_tcp_overflow,
    pyGet, pyGetD, lookupS, pyEqZero, pyStr, pymin, combine, calculate_severity,
    CRITICAL_USAGE_THRESHOLD, THRESHOLDS, SEVERITY_WEIGHTS, SEVERITY_THRESHOLDS,
    defaultDetector] <;>
  norm_num [combine, calculate_severity, pymin, Except.map]

/-- Witness for C6 with threshold 80 and value 96. -/
theorem cpu_tag_flips_at_95_witness :
    (96 : ℚ) > 80 ∧
    (detect { defaultDetector with thresholds := { THRESHOLDS with cpu_usage := 80 } }
        [("cpu_usage", Val.num 96)]).map
      (fun r => (r.anomalies.map (fun a => (a.metric, a.severity, a.value, a.threshold)),
                 r.severity_score, r.anomaly_count)) =
      Except.ok ([("cpu_usage", (if (96 : ℚ) < 95 then "warning" else "critical"),
                   96, some 80)],
                 pymin 100 (pymin 30 ((96 - 80) / 2)), 1) :=
  ⟨by decide, (cpu_tag_flips_at_95 80 96 (by decide)).1⟩

/-- C7: the summary holding only `tcp_listen_overflow_per_sec = 0.05` under
the default configs yields exactly one anomaly record, the raw score
`min(20, 0.05 * 2) = 0.1`, tier `normal`, and `is_anomaly = true`: the flag
can be true while the tier is `normal`. -/
theorem tcp_overflow_subthreshold :
    (detect defaultDetector [("tcp_listen_overflow_per_sec", Val.num (1/20))]).map
      (fun r => (r.is_anomaly, r.anomalies.map (fun a => (a.metric, a.severity, a.value)),
                 r.severity, r.severity_score, r.anomaly_count)) =
      Except.ok (true, [("tcp_listen_overflow_per_sec", "warning", 1/20)],
                 "normal", 1/10, 1) ∧
    (evalRules THRESHOLDS SEVERITY_WEIGHTS
        [("tcp_listen_overflow_per_sec", Val.num (1/20))]).map (fun acc => acc.2) =
      Except.ok (pymin 20 (1/20 * 2)) := by
  constructor <;>
  simp [detect, evalRules, check_up, check_cpu, check_iowait, check_load1,
    check_memory, check_swap, check_fs, check_fs_list, check_fs_entry,
    check_fs_readonly, check_net_err, check_tcp_retrans, check_tcp_overflow,
    pyGet, pyGetD, lookupS, pyEqZero, pyStr, pymin, combine, calculate_severity,
    CRITICAL_USAGE_THRESHOLD, THRESHOLDS, SEVERITY_WEIGHTS, SEVERITY_THRESHOLDS,
    defaultDetector] <;>
  norm_num [combine, calculate_severity, pymin, Except.map]

/-- C8: the filesystem check is per-entry: of the two supplied entries only
the one at 92 percent (above the default disk threshold 90, below 95, hence
`warning`) produces an anomaly carrying mountpoint `/`, with raw score
`min(20, (92-90)/2) = 1`; an entry without a `mountpoint` label yields an
anomaly with mountpoint `unknown` and no error. -/
theorem fs_check_per_entry :
    (detect defaultDetector
        [("fs_usage_top3", Val.list
          [Val.dict [("labels", Val.dict [("mountpoint", Val.str "/")]), ("value", Val.num 92)],
           Val.dict [("labels", Val.dict [("mountpoint", Val.str "/data")]), ("value", Val.num 60)]])]).map
      (fun r => (r.anomalies.map (fun a => (a.metric, a.severity, a.value, a.threshold, a.mountpoint)),
                 r.severity_score)) =
      Except.ok ([("fs_usage", "warning", 92, some 90, some (Val.str "/"))], 1) ∧
    (evalRules THRESHOLDS SEVERITY_WEIGHTS
        [("fs_usage_top3", Val.list
          [Val.dict [("labels", Val.dict [("mountpoint", Val.str "/")]), ("value", Val.num 92)],
           Val.dict [("labels", Val.dict [("mountpoint", Val.str "/data")]), ("value", Val.num 60)]])]).map
      (fun acc => acc.2) = Except.ok (pymin 20 ((92 - 90) / 2)) ∧
    (detect defaultDetector
        [("fs_usage_top3", Val.list [Val.dict [("value", Val.num 92)]])]).map
      (fun r => r.anomalies.map (fun a => (a.metric, a.mountpoint))) =
      Except.ok [("fs_usage", some (Val.str "unknown"))] := by
  refine ⟨?_, ?_, ?_⟩ <;>
  simp [detect, evalRules, check_up, check_cpu, check_iowait, check_load1,
    check_memory, check_swap, check_fs, check_fs_list, check_fs_entry,
    check_fs_readonly, check_net_err, check_tcp_retrans, check_tcp_overflow,
    pyGet, pyGetD, lookupS, pyEqZero, pyStr, pymin, combine, calculate_severity,
    CRITICAL_USAGE_THRESHOLD, THRESHOLDS, SEVERITY_WEIGHTS, SEVERITY_THRESHOLDS,
    defaultDetector] <;>
  norm_num [combine, calculate_severity, pymin, Except.map]

/-- C9: every result `detect` returns is internally consistent: the flag is
true exactly when the anomaly list is non-empty, the count equals the list
length, and every record carries a non-empty message and a per-rule
severity of `warning` or `critical`. -/
theorem detect_result_invariants (D : Detector) (s : Summary) (r : DetectResult)
    (h : detect D s = Except.ok r) :
    (r.is_anomaly = true ↔ r.anomalies ≠ []) ∧
    r.anomaly_count = r.anomalies.length ∧
    ∀ a ∈ r.anomalies, a.message ≠ "" ∧
      (a.severity = "warning" ∨ a.severity = "critical") := by
  unfold detect at h
  split at h
  · exact absurd h (by simp)
  · rename_i acc anoms score heq
    cases h
    refine ⟨?_, rfl, ?_⟩
    · simp [List.length_pos]
    · intro a ha
      exact evalRules_good D.thresholds D.weights s _ heq a ha

/-- Witness for C9 at the empty summary. -/
theorem detect_result_invariants_witness :
    detect defaultDetector [] = Except.ok
      { is_anomaly := false, anomalies := [], severity := "normal",
        severity_score := 0, anomaly_count := 0 } ∧
    (((false : Bool) = true ↔ ([] : List Anomaly) ≠ []) ∧
     (0 : ℕ) = ([] : List Anomaly).length ∧
     ∀ a ∈ ([] : List Anomaly), a.message ≠ "" ∧
       (a.severity = "warning" ∨ a.severity = "critical")) := by
  have h : detect defaultDetector [] = Except.ok
      { is_anomaly := false, anomalies := [], severity := "normal",
        severity_score := 0, anomaly_count := 0 } := by
    simp [detect, evalRules, check_up, check_cpu, check_iowait, check_load1,
      check_memory, check_swap, check_fs, check_fs_list, check_fs_entry,
      check_fs_readonly, check_net_err, check_tcp_retrans, check_tcp_overflow,
      pyGet, pyGetD, lookupS, pyEqZero, pyStr, pymin, combine, calculate_severity,
      CRITICAL_USAGE_THRESHOLD, THRESHOLDS, SEVERITY_WEIGHTS, SEVERITY_THRESHOLDS,
      defaultDetector] <;>
    norm_num [combine, calculate_severity, pymin, Except.map]
  exact ⟨h, detect_result_invariants defaultDetector [] _ h⟩

/-- C10: constructing an `AnomalyDetector` with an empty dict for any of the
three config arguments behaves identically to passing `None`: the empty
dict is silently replaced by the baked-in default config, so an injected
empty config can never mean an absence of thresholds, weights or tiers. -/
theorem mkAnomalyDetector_empty_eq_none (t w s : Option (List (String × ℚ))) :
    mkAnomalyDetector (some []) w s = mkAnomalyDetector Option.none w s ∧
    mkAnomalyDetector t (some []) s = mkAnomalyDetector t Option.none s ∧
    mkAnomalyDetector t w (some []) = mkAnomalyDetector t w Option.none ∧
    mkAnomalyDetector (some []) (some []) (some []) =
      { thresholds := THRESHOLDS_items, weights := SEVERITY_WEIGHTS_items,
        severity_thresholds := SEVERITY_THRESHOLDS_items } := by
  refine ⟨?_, ?_, ?_, rfl⟩ <;> simp [mkAnomalyDetector, orDefault]
